import Mathlib

/-!
Verification of the enarx SEV-SNP launch backend against its specification.

Shallow embedding of:
- `src/backend/sev/snp/launch/linux.rs` — the ioctl command codec,
- `src/backend/sev/builder.rs` — the retry wrapper, the `Mapper::map`
  page-mapping routine and the `TryFrom<Builder>` launch-finish routine,
- `internal/wasmldr/src/loader/compiled/mod.rs` — the loader environment
  setup,
- the guest-side sallyport `Handler` capability gate (modelled from the
  spec; the sallyport guest module itself is not part of the sources,
  only its integration tests are).

Machine integers are modelled as `Nat`; none of the embedded code paths
perform overflowing arithmetic on the values the theorems talk about.
Fallible hardware/OS calls are modelled as `Except`-valued oracles passed
in explicitly, and the side effects the claims mention (KVM slot
creation, launch-update ioctls, sleeps, sally transitions) are recorded
in explicit effect traces.
-/

/- ------------------------------------------------------------------
   Ioctl command codec — src/backend/sev/snp/launch/linux.rs
   ------------------------------------------------------------------ -/

/-- The four launch ioctl sub-commands.  Embeds the `impl_const_id!`
table of `linux.rs` lines 18–26 (the `Id` trait instances; renamed from
`Id` because Lean's core already has an `Id`). -/
inductive IoctlId
  | init2
  | launchStart
  | launchUpdate
  | launchFinish
deriving DecidableEq, Repr

/-- The fixed operation code assigned to each sub-command
(`Init2 = 22, LaunchStart = 100, LaunchUpdate = 101, LaunchFinish = 102`,
from the `impl_const_id!` invocation in `linux.rs`). -/
def IoctlId.code : IoctlId → Nat
  | .init2 => 22
  | .launchStart => 100
  | .launchUpdate => 101
  | .launchFinish => 102

/-- The generic SEV command envelope, `struct Command` of `linux.rs`
lines 58–65: `{code: u32, data: u64, error: u32, sev_fd: u32}` (the
`PhantomData` marker has no runtime content and is dropped). -/
structure Command where
  code : Nat
  data : Nat
  error : Nat
  sev_fd : Nat
deriving DecidableEq, Repr

/-- `Command::from_mut` (`linux.rs` lines 69–77): build the envelope
from the raw fd of the sev handle and the address of the mutable
sub-command.  `subcmdAddr` stands for `subcmd as *mut T as _`. -/
def Command.from_mut (sevFd : Nat) (subcmdAddr : Nat) (t : IoctlId) : Command :=
  { code := t.code
    data := subcmdAddr
    error := 0
    sev_fd := sevFd }

/-- `Command::from` (`linux.rs` lines 80–88): identical envelope
construction from a shared sub-command reference (`from` is a Lean
keyword, hence `fromRef`). -/
def Command.fromRef (sevFd : Nat) (subcmdAddr : Nat) (t : IoctlId) : Command :=
  { code := t.code
    data := subcmdAddr
    error := 0
    sev_fd := sevFd }

/-- `Indeterminate<Error>`: a launch error is either the
hardware-reported firmware error code or the underlying OS error
(the `Error`/`Indeterminate` types live in the firmware module, outside
the embedded sources; only the two-way distinction that
`Command::encapsulate` produces is needed here). -/
inductive Indeterminate
  | firmware (code : Nat)
  | os (err : Nat)
deriving DecidableEq, Repr

/-- `Command::encapsulate` (`linux.rs` lines 91–96):
`match self.error { 0 => Indeterminate::from(err), _ => Indeterminate::from(self.error) }`. -/
def Command.encapsulate (c : Command) (err : Nat) : Indeterminate :=
  match c.error with
  | 0 => .os err
  | e => .firmware e

/- ------------------------------------------------------------------
   Retry wrapper — src/backend/sev/builder.rs lines 29–66
   ------------------------------------------------------------------ -/

/-- `SEV_RETRIES` (`builder.rs` line 29). -/
def SEV_RETRIES : Nat := 3

/-- The loop body of `fn retry` (`builder.rs` lines 40–66).  The
fallible operation is an oracle `f` giving the outcome of its `i`-th
invocation; `retries` is the remaining budget.  Returns the final
result together with the number of sleeps performed and the number of
invocations of `f`.  Each sleep in the source lasts
`SEV_RETRY_SLEEP_MS + jitter`; only its occurrence is observable here. -/
def retryGo {E A : Type} (f : Nat → Except E A) : Nat → Nat → Except E A × Nat × Nat
  | retries, i =>
    match f i with
    | .ok o => (.ok o, 0, 1)
    | .error e =>
      match retries with
      | 0 => (.error e, 0, 1)
      | r + 1 =>
        let rest := retryGo f r (i + 1)
        (rest.1, rest.2.1 + 1, rest.2.2 + 1)

/-- `fn retry` (`builder.rs` lines 40–66): run the loop with the full
`SEV_RETRIES` budget, starting at the first invocation. -/
def retry {E A : Type} (f : Nat → Except E A) : Except E A × Nat × Nat :=
  retryGo f SEV_RETRIES 0

theorem retryGo_ok {E A : Type} (f : Nat → Except E A) (retries i : Nat) (v : A)
    (h : f i = .ok v) : retryGo f retries i = (.ok v, 0, 1) := by
  cases retries <;> · unfold retryGo; rw [h]

theorem retryGo_error_zero {E A : Type} (f : Nat → Except E A) (i : Nat) (e : E)
    (h : f i = .error e) : retryGo f 0 i = (.error e, 0, 1) := by
  unfold retryGo; rw [h]

theorem retryGo_error_succ {E A : Type} (f : Nat → Except E A) (r i : Nat) (e : E)
    (h : f i = .error e) :
    retryGo f (r + 1) i =
      ((retryGo f r (i + 1)).1, (retryGo f r (i + 1)).2.1 + 1,
        (retryGo f r (i + 1)).2.2 + 1) := by
  conv_lhs => unfold retryGo
  rw [h]

theorem retryGo_fail_then_ok {E A : Type} (f : Nat → Except E A) :
    ∀ (k budget i : Nat) (v : A), k ≤ budget →
      (∀ j, j < k → ∃ e, f (i + j) = .error e) →
      f (i + k) = .ok v →
      retryGo f budget i = (.ok v, k, k + 1) := by
  intro k
  induction k with
  | zero =>
    intro budget i v _ _ hok
    simpa using retryGo_ok f budget i v (by simpa using hok)
  | succ n ih =>
    intro budget i v hle hfail hok
    obtain ⟨e, he⟩ := hfail 0 (Nat.succ_pos n)
    obtain ⟨b, rfl⟩ : ∃ b, budget = b + 1 := by
      cases budget with
      | zero => exact absurd hle (by omega)
      | succ b => exact ⟨b, rfl⟩
    have hrec : retryGo f b (i + 1) = (.ok v, n, n + 1) := by
      apply ih b (i + 1) v (by omega)
      · intro j hj
        obtain ⟨e', he'⟩ := hfail (j + 1) (by omega)
        exact ⟨e', by simpa [Nat.add_assoc, Nat.add_comm 1 j] using he'⟩
      · simpa [Nat.add_assoc, Nat.add_comm 1 n] using hok
    rw [retryGo_error_succ f b i e (by simpa using he), hrec]

theorem retryGo_all_fail {E A : Type} (f : Nat → Except E A) (g : Nat → E)
    (hf : ∀ j, f j = .error (g j)) :
    ∀ (budget i : Nat),
      retryGo f budget i = (.error (g (i + budget)), budget, budget + 1) := by
  intro budget
  induction budget with
  | zero => intro i; simpa using retryGo_error_zero f i (g i) (hf i)
  | succ b ih =>
    intro i
    rw [retryGo_error_succ f b i (g i) (hf i), ih (i + 1)]
    have hidx : i + 1 + b = i + (b + 1) := by omega
    rw [hidx]

/- ------------------------------------------------------------------
   Mapper::map — src/backend/sev/builder.rs lines 115–187
   ------------------------------------------------------------------ -/

/-- `Page::SIZE`: one hardware page, 4096 bytes (`primordial::Page`). -/
def Page.SIZE : Nat := 4096

/-- The three program-header flag bits that `Mapper::map` tests on its
`with` argument: `with & SALLYPORT != 0`, `with & CPUID != 0`,
`with & SECRETS != 0` (the bit constants live in the `sallyport` elf
crate; the three membership tests are embedded as booleans). -/
structure PageFlags where
  sallyport : Bool
  cpuid : Bool
  secrets : Bool
deriving DecidableEq, Repr

/-- The page types of Table 58 of the SNP firmware specification that
`builder.rs` passes to `Update::new`. -/
inductive SnpPageType
  | normal
  | vmsa
  | secrets
  | cpuid
deriving DecidableEq, Repr

/-- `Update::new(to as u64 >> 12, &pages, page_type)`: the launch-update
descriptor (guest start frame, userspace address, byte length, page
type), as marshalled into `LaunchUpdate` by `linux.rs` lines 187–201. -/
structure UpdateDesc where
  start_gfn : Nat
  uaddr : Nat
  len : Nat
  page_type : SnpPageType
deriving DecidableEq, Repr

/-- The arguments of one `Mapper::map` call: the backing host mapping
(its userspace base address and byte length stand in for
`Map<perms::ReadWrite>`), the guest physical destination `to`, and the
tested flag bits of `with`. -/
structure MapInput where
  pagesAddr : Nat
  pagesLen : Nat
  gpa : Nat
  flags : PageFlags
deriving DecidableEq, Repr

/-- The fields of `Builder` that `Mapper::map` and the finish path read
or write: `config.sallyport_block_size`, `regions` (kept as the
`(slot id, guest physical address, byte length)` triples of each
`Region::new(slot, pages)`), and `sallyports`.  The kvm fd and launcher
handles are modelled by the hardware oracles instead. -/
structure BuilderState where
  blockSize : Nat
  regions : List (Nat × Nat × Nat)
  sallyports : List (Option Nat)
deriving DecidableEq, Repr

/-- Outcomes of the fallible hardware calls inside one `Mapper::map`
call, supplied as oracles: `Slot::new`, `set_memory_attributes`, the
cpuid table retrieval `import_from_kvm`, and the successive
`launcher.update_data` invocations (numbered within the call).  Errors
carry an opaque code. -/
structure HwEnv where
  slotNew : Except Nat Unit
  setMemAttrs : Except Nat Unit
  importCpuid : Except Nat Unit
  updateData : Nat → Except Nat Unit
deriving Inhabited

/-- Observable side effects of one `Mapper::map` call, in program
order. -/
inductive Effect
  | sallyportRegistered (addrs : List (Option Nat))
  | slotCreated (slotId : Nat)
  | memAttrsSet (gpa len : Nat)
  | cpuidImported
  | updateIssued (u : UpdateDesc)
deriving DecidableEq, Repr

/-- Result of one `Mapper::map` call: `ok` with the new builder state,
`err` with the propagated error code (the builder is abandoned), or
`assertFailed` for an `assert_eq!` panic. -/
inductive MapOutcome
  | ok (st : BuilderState)
  | err (code : Nat)
  | assertFailed
deriving DecidableEq, Repr

/-- Modelled from the spec: `map_sallyports`
(`crate::backend::kvm::builder`, not among the embedded sources)
"computes the number of fixed-size sallyport blocks the mapping's byte
range can hold (mapping size divided by configured block size, floor)
and appends that many entries — keyed by guest virtual address of each
block — to the SallyportAddressTable, in ascending address order". -/
def mapSallyports (pagesAddr pagesLen blockSize : Nat) : List (Option Nat) :=
  (List.range (pagesLen / blockSize)).map (fun i => some (pagesAddr + i * blockSize))

/-- The update descriptors appearing in an effect trace, in order. -/
def updatesOf (log : List Effect) : List UpdateDesc :=
  log.filterMap (fun ef => match ef with
    | .updateIssued u => some u
    | _ => none)

/-- `Mapper::map` (`builder.rs` lines 119–186).  Follows the source
control flow exactly:
1. empty `pages` returns `Ok(())` at once;
2. the `SALLYPORT` flag registers the mapping's sallyport blocks;
3. `Slot::new(launcher, regions.len(), &pages, to, true)?`;
4. `set_memory_attributes(launcher, to, pages.len(), true)?`;
5. classification: `CPUID` first (`assert_eq!(pages.len(), Page::SIZE)`,
   then `import_from_kvm`, writing the cpuid table into the page — a
   content mutation with no observable field here — `update_data`, retried
   once on any failure), else `SECRETS` (same assert, single
   `update_data`), else a `Normal` update;
6. `regions.push(Region::new(slot, pages))`. -/
def Mapper.map (env : HwEnv) (st : BuilderState) (inp : MapInput) :
    MapOutcome × List Effect :=
  if inp.pagesLen = 0 then
    (.ok st, [])
  else
    let sallyBlocks := mapSallyports inp.pagesAddr inp.pagesLen st.blockSize
    let st1 :=
      if inp.flags.sallyport then
        { st with sallyports := st.sallyports ++ sallyBlocks }
      else st
    let log1 : List Effect :=
      if inp.flags.sallyport then [.sallyportRegistered sallyBlocks] else []
    match env.slotNew with
    | .error e => (.err e, log1)
    | .ok _ =>
      let slotId := st1.regions.length
      let log2 := log1 ++ [.slotCreated slotId]
      match env.setMemAttrs with
      | .error e => (.err e, log2)
      | .ok _ =>
        let log3 := log2 ++ [.memAttrsSet inp.gpa inp.pagesLen]
        let pushed : BuilderState :=
          { st1 with regions := st1.regions ++ [(slotId, inp.gpa, inp.pagesLen)] }
        if inp.flags.cpuid then
          if inp.pagesLen = Page.SIZE then
            match env.importCpuid with
            | .error e => (.err e, log3)
            | .ok _ =>
              let u : UpdateDesc :=
                ⟨inp.gpa >>> 12, inp.pagesAddr, inp.pagesLen, .cpuid⟩
              let log4 := log3 ++ [.cpuidImported, .updateIssued u]
              match env.updateData 0 with
              | .ok _ => (.ok pushed, log4)
              | .error _ =>
                match env.updateData 1 with
                | .ok _ => (.ok pushed, log4 ++ [.updateIssued u])
                | .error e2 => (.err e2, log4 ++ [.updateIssued u])
          else (.assertFailed, log3)
        else if inp.flags.secrets then
          if inp.pagesLen = Page.SIZE then
            let u : UpdateDesc :=
              ⟨inp.gpa >>> 12, inp.pagesAddr, inp.pagesLen, .secrets⟩
            match env.updateData 0 with
            | .ok _ => (.ok pushed, log3 ++ [.updateIssued u])
            | .error e => (.err e, log3 ++ [.updateIssued u])
          else (.assertFailed, log3)
        else
          let u : UpdateDesc :=
            ⟨inp.gpa >>> 12, inp.pagesAddr, inp.pagesLen, .normal⟩
          match env.updateData 0 with
          | .ok _ => (.ok pushed, log3 ++ [.updateIssued u])
          | .error e => (.err e, log3 ++ [.updateIssued u])

/- ------------------------------------------------------------------
   Launch finish — src/backend/sev/builder.rs lines 189–242
   (impl TryFrom<Builder> for Arc<dyn Keep>)
   ------------------------------------------------------------------ -/

/-- The builder constructed by `TryFrom<Config> for Builder`
(`builder.rs` lines 105–111): empty `regions` and `sallyports`
vectors. -/
def initBuilder (blockSize : Nat) : BuilderState :=
  { blockSize := blockSize, regions := [], sallyports := [] }

/-- Run a sequence of `Mapper::map` calls, each with its own hardware
oracle, propagating the builder state while every call succeeds. -/
def runMaps : BuilderState → List (HwEnv × MapInput) → Option BuilderState
  | st, [] => some st
  | st, c :: rest =>
    match (Mapper.map c.1 st c.2).1 with
    | .ok st2 => runMaps st2 rest
    | _ => none

/-- The SEV signature blob pair of `config.signatures` used by the
finish path; only the byte lengths are inspected
(`IdAuth::from_bytes` / `IdBlock::from_bytes`). -/
structure SigBlob where
  id_auth_len : Nat
  id_block_len : Nat
deriving DecidableEq, Repr

/-- Modelled from the spec: the exact byte sizes against which
`IdAuth::from_bytes` and `IdBlock::from_bytes` validate their blobs
("an attestation id-block + id-authentication pair, validated for
exact byte length"; the `IdAuth`/`IdBlock` struct definitions are in
the launch module, not among the embedded sources).  The SNP firmware
ABI fixes the id block at 0x60 bytes and the id authentication
structure at 0x1000 bytes. -/
def ID_BLOCK_SIZE : Nat := 0x60

/-- See `ID_BLOCK_SIZE`. -/
def ID_AUTH_SIZE : Nat := 0x1000

/-- Errors of the `TryFrom<Builder>` finish path, in source order. -/
inductive FinishError
  | noSallyport
  | vcpuFailed (code : Nat)
  | invalidIdAuth
  | invalidIdBlock
  | finishFailed (code : Nat)
deriving DecidableEq, Repr

/-- The fields of the returned `Keep` that the builder hands over
(`builder.rs` lines 231–240). -/
structure KeepState where
  num_cpus : Nat
  regions : List (Nat × Nat × Nat)
  sallyport_block_size : Nat
  sallyports : List (Option Nat)
deriving DecidableEq, Repr

/-- Outcomes of the fallible calls inside the finish path:
`kvm_new_vcpu` and `launcher.finish`. -/
structure FinishHwEnv where
  newVcpu : Except Nat Unit
  launchFinish : Except Nat Unit
deriving Inhabited

/-- Observable side effects of the finish path. -/
inductive FinishEffect
  | vcpuCreated
  | finishIssued
deriving DecidableEq, Repr

/-- `TryFrom<Builder> for Arc<dyn Keep>` (`builder.rs` lines 189–242).
Source order: destructure the builder; bail with
"No sallyport blocks defined!" if `sallyports.is_empty()`;
`kvm_new_vcpu(...)?`; if signatures are present parse `IdAuth` then
`IdBlock` (each failing on a wrong blob length) and build a signed
`Finish`, else an unsigned one; `launcher.finish(finish)?`; wrap the
remaining state into a `Keep` with one vcpu. -/
def finishBuilder (hw : FinishHwEnv) (st : BuilderState) (signatures : Option SigBlob) :
    Except FinishError KeepState × List FinishEffect :=
  if st.sallyports.isEmpty then
    (.error .noSallyport, [])
  else
    match hw.newVcpu with
    | .error e => (.error (.vcpuFailed e), [])
    | .ok _ =>
      let log1 : List FinishEffect := [.vcpuCreated]
      let issue : Except FinishError KeepState × List FinishEffect :=
        match hw.launchFinish with
        | .error e => (.error (.finishFailed e), log1)
        | .ok _ =>
          (.ok { num_cpus := 1
                 regions := st.regions
                 sallyport_block_size := st.blockSize
                 sallyports := st.sallyports },
           log1 ++ [.finishIssued])
      match signatures with
      | some sig =>
        if sig.id_auth_len = ID_AUTH_SIZE then
          if sig.id_block_len = ID_BLOCK_SIZE then issue
          else (.error .invalidIdBlock, log1)
        else (.error .invalidIdAuth, log1)
      | none => issue

/- ------------------------------------------------------------------
   Loader environment setup —
   internal/wasmldr/src/loader/compiled/mod.rs lines 19–93
   ------------------------------------------------------------------ -/

/-- The parts of the wasm store context that `Loader<Compiled>::next`
mutates: pushed environment entries, pushed arguments, and inserted
files `(fd, name)`. -/
structure WasiCtx where
  env : List (String × String)
  args : List String
  files : List (Nat × String)
deriving DecidableEq, Repr

/-- `ctx.push_env(k, v)`. -/
def WasiCtx.pushEnv (ctx : WasiCtx) (k v : String) : WasiCtx :=
  { ctx with env := ctx.env ++ [(k, v)] }

/-- `ctx.push_arg(arg)`. -/
def WasiCtx.pushArg (ctx : WasiCtx) (a : String) : WasiCtx :=
  { ctx with args := ctx.args ++ [a] }

/-- `ctx.insert_file(fd, file, caps)`; only the fd and the file's
configured name are observable here. -/
def WasiCtx.insertFile (ctx : WasiCtx) (fd : Nat) (name : String) : WasiCtx :=
  { ctx with files := ctx.files ++ [(fd, name)] }

/-- The loader configuration read by `next`: `config.env`,
`config.args`, and `config.files` (each file contributing its
`name()`; the socket/stdio wiring performed per file is out of
scope and has no environment-visible effect). -/
structure LoaderConfig where
  env : List (String × String)
  args : List String
  fileNames : List String
deriving DecidableEq, Repr

/-- `Loader<Compiled>::next` (`compiled/mod.rs` lines 20–92), restricted
to its context mutations: push every configured environment pair, push
every argument, collect the file names, push `FD_COUNT` and `FD_NAMES`,
then insert each file at its index. -/
def loaderNext (cfg : LoaderConfig) : WasiCtx :=
  let ctx0 : WasiCtx := { env := [], args := [], files := [] }
  let ctx1 := cfg.env.foldl (fun c kv => c.pushEnv kv.1 kv.2) ctx0
  let ctx2 := cfg.args.foldl (fun c a => c.pushArg a) ctx1
  let names := cfg.fileNames
  let ctx3 := ctx2.pushEnv "FD_COUNT" (toString names.length)
  let ctx4 := ctx3.pushEnv "FD_NAMES" (String.intercalate ":" names)
  (names.enum.foldl (fun c nf => c.insertFile nf.1 nf.2) ctx4)

/- ------------------------------------------------------------------
   Guest-side sallyport Handler capability gate —
   crates/sallyport/src/v2 (guest module)
   ------------------------------------------------------------------ -/

/-- `ENOSYS` (linux). -/
def ENOSYS : Nat := 38

/-- The guest-side handler operations exercised by the integration
tests. -/
inductive HandlerOp
  | close (fd : Nat)
  | read (fd : Nat) (bufLen : Nat)
  | write (fd : Nat) (bufLen : Nat)
deriving DecidableEq, Repr

/-- Modelled from the spec: the guest-side `Handler` of the sallyport
crate (its `guest` module is not among the embedded sources; only
`crates/sallyport/src/v2/tests/integration_tests.rs` is).  "If the
platform does not support the requested class of operation at all, the
Handler returns a capability-not-supported error (equivalent to
`ENOSYS`) without attempting a sally."  `hasCapability` is whether the
build/platform provides the capability class for the syscall-shaped
operations (the `asm` feature in the tests); when present the handler
serializes the request, performs one sally transition and reports the
host's result. -/
structure GuestPlatform where
  hasCapability : Bool
  hostResult : HandlerOp → Except Nat Nat
deriving Inhabited

/-- Modelled from the spec: one guest-side `Handler` call.  Returns the
operation's result together with the number of sally transitions
performed during the call. -/
def handlerCall (p : GuestPlatform) (op : HandlerOp) : Except Nat Nat × Nat :=
  if p.hasCapability then
    match p.hostResult op with
    | .ok v => (.ok v, 1)
    | .error e => (.error e, 1)
  else
    (.error ENOSYS, 0)

/- ------------------------------------------------------------------
   Helper lemmas
   ------------------------------------------------------------------ -/

@[simp]
theorem updatesOf_nil : updatesOf [] = [] := rfl

@[simp]
theorem updatesOf_append (l1 l2 : List Effect) :
    updatesOf (l1 ++ l2) = updatesOf l1 ++ updatesOf l2 := by
  simp [updatesOf]

@[simp]
theorem updatesOf_cons_sallyport (a : List (Option Nat)) (l : List Effect) :
    updatesOf (.sallyportRegistered a :: l) = updatesOf l := by
  simp [updatesOf]

@[simp]
theorem updatesOf_cons_slot (s : Nat) (l : List Effect) :
    updatesOf (.slotCreated s :: l) = updatesOf l := by
  simp [updatesOf]

@[simp]
theorem updatesOf_cons_memattrs (g n : Nat) (l : List Effect) :
    updatesOf (.memAttrsSet g n :: l) = updatesOf l := by
  simp [updatesOf]

@[simp]
theorem updatesOf_cons_import (l : List Effect) :
    updatesOf (.cpuidImported :: l) = updatesOf l := by
  simp [updatesOf]

@[simp]
theorem updatesOf_cons_update (u : UpdateDesc) (l : List Effect) :
    updatesOf (.updateIssued u :: l) = u :: updatesOf l := by
  simp [updatesOf]

/-- On a successful `map` call whose flags do not carry `SALLYPORT`,
the sallyport address table is untouched. -/
theorem map_ok_sallyports (env : HwEnv) (st : BuilderState) (inp : MapInput)
    (st2 : BuilderState) (hok : (Mapper.map env st inp).1 = .ok st2)
    (hsp : inp.flags.sallyport = false) : st2.sallyports = st.sallyports := by
  unfold Mapper.map at hok
  repeat' split at hok
  all_goals simp_all
  all_goals (cases hok; rfl)

/-- Running a sequence of `map` calls none of which carries the
`SALLYPORT` flag leaves the sallyport address table as it started. -/
theorem runMaps_sallyports : ∀ (calls : List (HwEnv × MapInput)) (st st2 : BuilderState),
    (∀ c ∈ calls, (c : HwEnv × MapInput).2.flags.sallyport = false) →
    runMaps st calls = some st2 → st2.sallyports = st.sallyports := by
  intro calls
  induction calls with
  | nil =>
    intro st st2 _ h
    simp only [runMaps, Option.some_inj] at h
    rw [← h]
  | cons c rest ih =>
    intro st st2 hall hrun
    unfold runMaps at hrun
    cases hm : (Mapper.map c.1 st c.2).1 with
    | ok stm =>
      rw [hm] at hrun
      have h1 := map_ok_sallyports c.1 st c.2 stm hm (hall c (by simp))
      have h2 := ih stm st2 (fun x hx => hall x (by simp [hx])) hrun
      rw [h2, h1]
    | err e => rw [hm] at hrun; cases hrun
    | assertFailed => rw [hm] at hrun; cases hrun

/- ------------------------------------------------------------------
   Claim theorems
   ------------------------------------------------------------------ -/

/-- C5: a `map` call whose page buffer is empty returns success
immediately and leaves the builder's state entirely unchanged — the
effect trace is empty, so no KVM slot is created, no region is
appended, no sallyport entries are added, and no launch-update is
issued. -/
theorem map_empty_is_noop (env : HwEnv) (st : BuilderState) (addr gpa : Nat)
    (w : PageFlags) :
    Mapper.map env st ⟨addr, 0, gpa, w⟩ = (.ok st, []) := by
  simp [Mapper.map]

/-- C10: page classification in `map` follows a fixed precedence — for
every non-empty mapping, every launch-update issued during the call
carries the CPUID page type when the CPUID flag bit is set (even when
the SECRETS bit is also set), the Secrets type when only the SECRETS
bit is set, and the Normal type when neither is set; a single
classification governs the whole call. -/
theorem map_classification_precedence (env : HwEnv) (st : BuilderState)
    (inp : MapInput) (hne : inp.pagesLen ≠ 0) :
    ∀ u ∈ updatesOf (Mapper.map env st inp).2,
      u.page_type = (if inp.flags.cpuid then SnpPageType.cpuid
                     else if inp.flags.secrets then SnpPageType.secrets
                     else SnpPageType.normal) := by
  intro u hu
  unfold Mapper.map at hu
  repeat' split at hu
  all_goals simp_all

/-- Witness for C10 at a concrete input: a mapping with both the CPUID
and the SECRETS bits set issues its update with the CPUID page type. -/
theorem map_classification_precedence_witness :
    (⟨2, 1000, 4096, SnpPageType.cpuid⟩ : UpdateDesc).page_type = SnpPageType.cpuid := by
  have h := map_classification_precedence
    ⟨.ok (), .ok (), .ok (), fun _ => .ok ()⟩ (initBuilder 512)
    ⟨1000, 4096, 8192, ⟨false, true, true⟩⟩ (by decide)
    ⟨2, 1000, 4096, SnpPageType.cpuid⟩ (by decide)
  exact h

/-- C3: when the flags select a CPUID or a Secrets page and the backing
buffer is not exactly one hardware page, the `assert_eq!` fires —
`map` fails fatally (`assertFailed`, a programming-error-class panic,
never retried) and no launch-update is ever issued during the call;
when the buffer is exactly one page, the assertion branch is
unreachable. -/
theorem map_wrong_size_asserts :
    (∀ (env : HwEnv) (st : BuilderState) (inp : MapInput),
      (inp.flags.cpuid = true ∨ inp.flags.secrets = true) →
      inp.pagesLen ≠ 0 → inp.pagesLen ≠ Page.SIZE →
      env.slotNew = .ok () → env.setMemAttrs = .ok () →
      (Mapper.map env st inp).1 = .assertFailed ∧
        updatesOf (Mapper.map env st inp).2 = []) ∧
    (∀ (env : HwEnv) (st : BuilderState) (inp : MapInput),
      inp.pagesLen = Page.SIZE → (Mapper.map env st inp).1 ≠ .assertFailed) := by
  constructor
  · intro env st inp hflag hne hsz hsn hsm
    unfold Mapper.map
    rcases hflag with hc | hsec
    all_goals repeat' split
    all_goals simp_all
  · intro env st inp hsz
    unfold Mapper.map
    repeat' split
    all_goals simp_all

/-- Witness for C3 at concrete inputs: a two-page Secrets mapping
panics with no update issued, and a one-page Secrets mapping does not
panic. -/
theorem map_wrong_size_asserts_witness :
    ((Mapper.map ⟨.ok (), .ok (), .ok (), fun _ => .ok ()⟩ (initBuilder 512)
        ⟨1000, 8192, 8192, ⟨false, false, true⟩⟩).1 = .assertFailed ∧
      updatesOf (Mapper.map ⟨.ok (), .ok (), .ok (), fun _ => .ok ()⟩ (initBuilder 512)
        ⟨1000, 8192, 8192, ⟨false, false, true⟩⟩).2 = []) ∧
    (Mapper.map ⟨.ok (), .ok (), .ok (), fun _ => .ok ()⟩ (initBuilder 512)
        ⟨1000, 4096, 8192, ⟨false, false, true⟩⟩).1 ≠ .assertFailed := by
  constructor
  · exact map_wrong_size_asserts.1 ⟨.ok (), .ok (), .ok (), fun _ => .ok ()⟩
      (initBuilder 512) ⟨1000, 8192, 8192, ⟨false, false, true⟩⟩
      (Or.inr rfl) (by decide) (by decide) rfl rfl
  · exact map_wrong_size_asserts.2 ⟨.ok (), .ok (), .ok (), fun _ => .ok ()⟩
      (initBuilder 512) ⟨1000, 4096, 8192, ⟨false, false, true⟩⟩ rfl

/-- C2: for a CPUID mapping (one-page buffer, earlier hardware steps
succeeding), if the first `update_data` call succeeds exactly one
launch-update is issued; if it fails, exactly one further attempt with
the same update descriptor is made — never a third — and a failure of
that second attempt is propagated as the call's error, while its
success makes the call succeed.  The retry triggers on any failure of
the first attempt. -/
theorem map_cpuid_retry_once (env : HwEnv) (st : BuilderState) (inp : MapInput)
    (hc : inp.flags.cpuid = true) (hsz : inp.pagesLen = Page.SIZE)
    (hsn : env.slotNew = .ok ()) (hsm : env.setMemAttrs = .ok ())
    (him : env.importCpuid = .ok ()) :
    (∀ v, env.updateData 0 = .ok v →
      updatesOf (Mapper.map env st inp).2 =
        [⟨inp.gpa >>> 12, inp.pagesAddr, inp.pagesLen, .cpuid⟩]) ∧
    (∀ e, env.updateData 0 = .error e →
      updatesOf (Mapper.map env st inp).2 =
        [⟨inp.gpa >>> 12, inp.pagesAddr, inp.pagesLen, .cpuid⟩,
         ⟨inp.gpa >>> 12, inp.pagesAddr, inp.pagesLen, .cpuid⟩] ∧
      (∀ e2, env.updateData 1 = .error e2 → (Mapper.map env st inp).1 = .err e2) ∧
      (∀ v, env.updateData 1 = .ok v → ∃ st2, (Mapper.map env st inp).1 = .ok st2)) := by
  refine ⟨?_, ?_⟩
  · intro v h0
    unfold Mapper.map
    repeat' split
    all_goals simp_all [Page.SIZE]
  · intro e h0
    refine ⟨?_, ?_, ?_⟩
    · unfold Mapper.map
      repeat' split
      all_goals simp_all [Page.SIZE]
    · intro e2 h1
      unfold Mapper.map
      repeat' split
      all_goals simp_all [Page.SIZE]
    · intro v h1
      unfold Mapper.map
      repeat' split
      all_goals simp_all [Page.SIZE]

/-- Witness for C2 at a concrete input: with the first `update_data`
failing with code 9 and the second with code 11, exactly two identical
CPUID updates are issued and the call fails with 11. -/
theorem map_cpuid_retry_once_witness :
    updatesOf (Mapper.map
        ⟨.ok (), .ok (), .ok (), fun i => if i = 0 then .error 9 else .error 11⟩
        (initBuilder 512) ⟨1000, 4096, 8192, ⟨false, true, false⟩⟩).2 =
      [⟨2, 1000, 4096, .cpuid⟩, ⟨2, 1000, 4096, .cpuid⟩] ∧
    (Mapper.map
        ⟨.ok (), .ok (), .ok (), fun i => if i = 0 then .error 9 else .error 11⟩
        (initBuilder 512) ⟨1000, 4096, 8192, ⟨false, true, false⟩⟩).1 = .err 11 := by
  have h := map_cpuid_retry_once
    ⟨.ok (), .ok (), .ok (), fun i => if i = 0 then .error 9 else .error 11⟩
    (initBuilder 512) ⟨1000, 4096, 8192, ⟨false, true, false⟩⟩
    rfl rfl rfl rfl rfl
  exact ⟨(h.2 9 rfl).1, (h.2 9 rfl).2.1 11 rfl⟩

/-- C1: if zero sallyport-carrying regions were registered over the
whole prior sequence of `map` calls (in particular when no call's
flags carried the `SALLYPORT` bit, starting from the freshly built
`Builder`), the sallyport address table is empty; and converting a
builder with an empty sallyport table into a `Keep` fails with the
"No sallyport blocks defined!" error while the hardware launch-finish
operation is never issued (the finish effect trace is empty). -/
theorem finish_no_sallyport :
    (∀ (blockSize : Nat) (calls : List (HwEnv × MapInput)) (st2 : BuilderState),
      (∀ c ∈ calls, (c : HwEnv × MapInput).2.flags.sallyport = false) →
      runMaps (initBuilder blockSize) calls = some st2 →
      st2.sallyports = []) ∧
    (∀ (hw : FinishHwEnv) (st : BuilderState) (sig : Option SigBlob),
      st.sallyports = [] →
      finishBuilder hw st sig = (.error .noSallyport, []) ∧
        FinishEffect.finishIssued ∉ (finishBuilder hw st sig).2) := by
  constructor
  · intro blockSize calls st2 hall hrun
    rw [runMaps_sallyports calls (initBuilder blockSize) st2 hall hrun]
    rfl
  · intro hw st sig hempty
    have h : finishBuilder hw st sig = (.error .noSallyport, []) := by
      unfold finishBuilder
      rw [hempty]
      rfl
    exact ⟨h, by rw [h]; simp⟩

/-- Witness for C1 at a concrete input: one non-sallyport Normal
mapping leaves the table empty, and finishing that builder fails with
`noSallyport` and an empty effect trace. -/
theorem finish_no_sallyport_witness :
    BuilderState.sallyports
        { blockSize := 512, regions := [(0, 8192, 4096)], sallyports := [] } = [] ∧
    finishBuilder ⟨.ok (), .ok ()⟩
        { blockSize := 512, regions := [(0, 8192, 4096)], sallyports := [] } none =
      (.error .noSallyport, []) := by
  constructor
  · exact finish_no_sallyport.1 512
      [(⟨.ok (), .ok (), .ok (), fun _ => .ok ()⟩, ⟨1000, 4096, 8192, ⟨false, false, false⟩⟩)]
      { blockSize := 512, regions := [(0, 8192, 4096)], sallyports := [] }
      (by intro c hc; rw [List.mem_singleton] at hc; rw [hc])
      rfl
  · exact (finish_no_sallyport.2 ⟨.ok (), .ok ()⟩
      { blockSize := 512, regions := [(0, 8192, 4096)], sallyports := [] } none rfl).1

/-- C4: behaviour of the `retry` wrapper with its configured budget of
`SEV_RETRIES` retries — immediate success returns at once with no
sleep and one invocation; failing exactly `k ≤ SEV_RETRIES` times and
then succeeding returns the success value after exactly `k` sleeps and
`k + 1` invocations; always failing returns the final error after
exactly `SEV_RETRIES` retries (`SEV_RETRIES` sleeps, `SEV_RETRIES + 1`
invocations). -/
theorem retry_budget_spec :
    (∀ (E A : Type) (f : Nat → Except E A) (v : A), f 0 = .ok v →
      retry f = (.ok v, 0, 1)) ∧
    (∀ (E A : Type) (f : Nat → Except E A) (k : Nat) (v : A), k ≤ SEV_RETRIES →
      (∀ j, j < k → ∃ e, f j = .error e) → f k = .ok v →
      retry f = (.ok v, k, k + 1)) ∧
    (∀ (E A : Type) (f : Nat → Except E A) (g : Nat → E),
      (∀ j, f j = .error (g j)) →
      retry f = (.error (g SEV_RETRIES), SEV_RETRIES, SEV_RETRIES + 1)) := by
  refine ⟨?_, ?_, ?_⟩
  · intro E A f v h
    exact retryGo_ok f SEV_RETRIES 0 v h
  · intro E A f k v hk hfail hok
    have h := retryGo_fail_then_ok f k SEV_RETRIES 0 v hk
      (by intro j hj; simpa using hfail j hj) (by simpa using hok)
    exact h
  · intro E A f g hf
    have h := retryGo_all_fail f g hf SEV_RETRIES 0
    simpa using h

/-- Witness for C4 at concrete inputs: a function failing twice then
succeeding returns the success after 2 sleeps and 3 invocations; an
always-failing function returns the last error after 3 sleeps and 4
invocations; an immediately succeeding function performs no sleep. -/
theorem retry_budget_spec_witness :
    retry (fun i => if i < 2 then (.error 7 : Except Nat Nat) else .ok 42) =
      (.ok 42, 2, 3) ∧
    retry (fun _ => (.error 7 : Except Nat Nat)) = (.error 7, 3, 4) ∧
    retry (fun _ => (.ok 5 : Except Nat Nat)) = (.ok 5, 0, 1) := by
  refine ⟨?_, ?_, ?_⟩
  · exact retry_budget_spec.2.1 Nat Nat
      (fun i => if i < 2 then (.error 7 : Except Nat Nat) else .ok 42) 2 42
      (by decide)
      (by intro j hj; exact ⟨7, by simp [hj]⟩)
      (by norm_num)
  · exact retry_budget_spec.2.2 Nat Nat (fun _ => (.error 7 : Except Nat Nat))
      (fun _ => 7) (fun _ => rfl)
  · exact retry_budget_spec.1 Nat Nat (fun _ => (.ok 5 : Except Nat Nat)) 5 rfl

/-- C6: the four launch ioctl sub-commands carry the fixed operation
codes Init2 = 22, LaunchStart = 100, LaunchUpdate = 101,
LaunchFinish = 102, and every envelope built by `Command::from` or
`Command::from_mut` is exactly `{code, data, error, sev_fd}` with
`code` the sub-command's fixed id, `data` the address of the
sub-command structure, and `error` initialized to zero. -/
theorem command_codes_and_envelope :
    IoctlId.code .init2 = 22 ∧ IoctlId.code .launchStart = 100 ∧
    IoctlId.code .launchUpdate = 101 ∧ IoctlId.code .launchFinish = 102 ∧
    (∀ (fd addr : Nat) (t : IoctlId),
      Command.from_mut fd addr t =
        { code := t.code, data := addr, error := 0, sev_fd := fd } ∧
      Command.fromRef fd addr t =
        { code := t.code, data := addr, error := 0, sev_fd := fd }) :=
  ⟨rfl, rfl, rfl, rfl, fun _ _ _ => ⟨rfl, rfl⟩⟩

/-- C7: `Command::encapsulate` wraps the hardware-reported error code
exactly when the envelope's error field is nonzero, and wraps the
underlying OS error exactly when the error field is zero; no error is
discarded. -/
theorem encapsulate_never_discards (c : Command) (e : Nat) :
    (Command.encapsulate c e = .firmware c.error ↔ c.error ≠ 0) ∧
    (Command.encapsulate c e = .os e ↔ c.error = 0) := by
  rcases c with ⟨code, data, err, fd⟩
  cases err with
  | zero => simp [Command.encapsulate]
  | succ n => simp [Command.encapsulate]

/-- Witness for C7 at concrete envelopes: a nonzero error field yields
the firmware error, a zero one yields the OS error. -/
theorem encapsulate_never_discards_witness :
    Command.encapsulate ⟨101, 4096, 7, 3⟩ 5 = .firmware 7 ∧
    Command.encapsulate ⟨101, 4096, 0, 3⟩ 5 = .os 5 :=
  ⟨(encapsulate_never_discards ⟨101, 4096, 7, 3⟩ 5).1.mpr (by decide),
   (encapsulate_never_discards ⟨101, 4096, 0, 3⟩ 5).2.mpr rfl⟩

@[simp]
theorem pushEnv_env (ctx : WasiCtx) (k v : String) :
    (ctx.pushEnv k v).env = ctx.env ++ [(k, v)] := rfl

theorem foldl_pushEnv_env (l : List (String × String)) :
    ∀ ctx : WasiCtx,
      (l.foldl (fun c kv => c.pushEnv kv.1 kv.2) ctx).env = ctx.env ++ l := by
  induction l with
  | nil => intro ctx; simp
  | cons kv rest ih =>
    intro ctx
    rw [List.foldl_cons, ih]
    simp

theorem foldl_pushArg_env (l : List String) :
    ∀ ctx : WasiCtx, (l.foldl (fun c a => c.pushArg a) ctx).env = ctx.env := by
  induction l with
  | nil => intro ctx; rfl
  | cons a rest ih =>
    intro ctx
    rw [List.foldl_cons, ih]
    rfl

theorem foldl_insertFile_env (l : List (Nat × String)) :
    ∀ ctx : WasiCtx,
      (l.foldl (fun c nf => c.insertFile nf.1 nf.2) ctx).env = ctx.env := by
  induction l with
  | nil => intro ctx; rfl
  | cons nf rest ih =>
    intro ctx
    rw [List.foldl_cons, ih]
    rfl

/-- C8 counterexample: at the concrete configuration with no
pre-configured environment entries and two file descriptors named
"TEST" and "DATA", the loader's next step pushes exactly the two
aggregate entries `FD_COUNT` and `FD_NAMES` — filtering them away
leaves nothing, so there is no additional per-descriptor environment
entry describing a file descriptor's name. -/
theorem loaderNext_no_per_fd_entry :
    (loaderNext { env := [], args := [], fileNames := ["TEST", "DATA"] }).env =
      [("FD_COUNT", "2"), ("FD_NAMES", "TEST:DATA")] ∧
    ((loaderNext { env := [], args := [], fileNames := ["TEST", "DATA"] }).env.filter
        (fun kv => !(kv.1 == "FD_COUNT") && !(kv.1 == "FD_NAMES"))) = [] := by
  constructor
  · rfl
  · rfl

/-- C8 (amended): the loader's next step appends to the configured
environment exactly two file-descriptor entries — `FD_COUNT`, the
decimal count of configured file descriptors, and `FD_NAMES`, their
names joined by ":" in configuration order; no separate
per-descriptor environment entry is created. -/
theorem loaderNext_env_entries (cfg : LoaderConfig) :
    (loaderNext cfg).env =
      cfg.env ++ [("FD_COUNT", toString cfg.fileNames.length),
                  ("FD_NAMES", String.intercalate ":" cfg.fileNames)] := by
  unfold loaderNext
  rw [foldl_insertFile_env, pushEnv_env, pushEnv_env, foldl_pushArg_env,
    foldl_pushEnv_env]
  simp

/-- C9: a guest-side `Handler` operation (close, read or write) invoked
on a platform/build where the corresponding capability class is absent
returns `ENOSYS` as an ordinary error value, and no sally transition
is performed for the call. -/
theorem handler_absent_capability_enosys (p : GuestPlatform) (op : HandlerOp)
    (h : p.hasCapability = false) :
    handlerCall p op = (.error ENOSYS, 0) := by
  simp [handlerCall, h]

/-- Witness for C9 at a concrete input: `write(fd, b"write")` (a
5-byte buffer on fd 3) on a platform without the capability returns
`ENOSYS` with zero sally transitions; the same for close and read. -/
theorem handler_absent_capability_enosys_witness :
    handlerCall ⟨false, fun _ => .ok 0⟩ (.write 3 5) = (.error ENOSYS, 0) ∧
    handlerCall ⟨false, fun _ => .ok 0⟩ (.close 3) = (.error ENOSYS, 0) ∧
    handlerCall ⟨false, fun _ => .ok 0⟩ (.read 3 4) = (.error ENOSYS, 0) :=
  ⟨handler_absent_capability_enosys ⟨false, fun _ => .ok 0⟩ (.write 3 5) rfl,
   handler_absent_capability_enosys ⟨false, fun _ => .ok 0⟩ (.close 3) rfl,
   handler_absent_capability_enosys ⟨false, fun _ => .ok 0⟩ (.read 3 4) rfl⟩
